import Mathlib

/-!
# Verification of the digital-twin simulation backend core

A shallow embedding of the session runtime of the repository:
the simulation models (`app/models/water_tank.py`,
`app/models/room_temperature.py`), the in-memory session store
(`app/services/session_store.py`) and the session runtime
(`app/services/simulation_manager.py`).

Modelling conventions:
* Python floats are modelled as exact rationals (`ℚ`); decimal literals
  such as `0.1` denote the exact decimal value.
* Timestamps (`time.time()`, the store's integer clock) are modelled as a
  single integer-valued instant `now : ℤ` passed explicitly to each
  operation.
* Python exceptions are modelled with `Except`: an operation returns the
  error together with the state reached by the side effects performed
  before the exception was raised.
* SciPy's `odeint` call inside `WaterTank.step` is numerical integration
  outside the scope of the core; its output is abstracted as an explicit
  argument `new_level_raw` of `step`, universally quantified in every
  theorem about `step`.
* Python `**kwargs` dictionaries are association lists from `String` to a
  dynamic value type `PyValue`; attribute assignment (`setattr`) is
  modelled at matching types.
-/

/-- A state snapshot as returned by `get_state` in the source: a flat
mapping of field name to numeric value (`{"level": ...}` or
`{"temperature": ...}`). -/
abbrev Snapshot : Type := List (String × ℚ)

mutual
/-- A dynamically typed Python value, as passed in a `**kwargs` mapping:
a number, a list of state snapshots (the `history` attribute), or a list
of log entries (the `logs` attribute). -/
inductive PyValue : Type where
  | num (q : ℚ)
  | snapshots (h : List (List (String × ℚ)))
  | logList (l : List LogEntry)

/-- One entry of a model's `logs` list.  The source stores formatted
strings; the embedding keeps the information content of each format
string as a constructor. -/
inductive LogEntry : Type where
  | stepped (control_input delta_time : ℚ)
  | resetCalled
  | paramsUpdated (kwargs : List (String × PyValue))
end

/-- A `**kwargs` parameter mapping. -/
abbrev Params : Type := List (String × PyValue)

/-- First-match lookup in an association list (Python `dict` access;
reachable dictionaries have unique keys). -/
def alookup {α : Type} : List (String × α) → String → Option α
  | [], _ => none
  | (k, v) :: rest, key => if k = key then some v else alookup rest key

/-- Python's `kwargs.get(key, default)` restricted to numeric values. -/
def getNum (kwargs : Params) (key : String) (default : ℚ) : ℚ :=
  match alookup kwargs key with
  | some (PyValue.num q) => q
  | _ => default

/-- The error taxonomy of the runtime (`ValueError`s in the source,
distinguished by their messages). -/
inductive SimError : Type where
  | invalidTimeStep
  | unknownModel (name : String)
  | unknownSession (sid : Nat)
  | constructionError
deriving DecidableEq

/-! ## WaterTank (`app/models/water_tank.py`) -/

/-- The `WaterTank` model: attributes `capacity`, `level`, `inflow`,
`outflow_coeff` plus the base-class `history` and `logs`. -/
structure WaterTank : Type where
  capacity : ℚ
  level : ℚ
  inflow : ℚ
  outflow_coeff : ℚ
  history : List Snapshot
  logs : List LogEntry

/-- Python `WaterTank.__init__(capacity=100.0, inflow=0.0, outflow_coeff=0.1)`:
raises `ValueError` when the capacity is not positive, otherwise starts
with `level = 0.0` and empty history and logs. -/
def WaterTank.make (capacity inflow outflow_coeff : ℚ) :
    Except SimError WaterTank :=
  if capacity ≤ 0 then Except.error SimError.constructionError
  else Except.ok
    { capacity := capacity
      level := 0
      inflow := inflow
      outflow_coeff := outflow_coeff
      history := []
      logs := [] }

/-- Python `WaterTank.get_state`: `{"level": self.level}`. -/
def WaterTank.get_state (t : WaterTank) : Snapshot :=
  [("level", t.level)]

/-- Python `WaterTank.step(control_input, delta_time)`: rejects a non-positive
`delta_time`, integrates the dynamics (the `odeint` output is the
abstracted argument `new_level_raw`), clamps the new level into
`[0, capacity]`, appends the new state to `history` and a log entry to
`logs`. -/
def WaterTank.step (t : WaterTank) (control_input new_level_raw delta_time : ℚ) :
    Except SimError WaterTank :=
  if delta_time ≤ 0 then Except.error SimError.invalidTimeStep
  else
    let level' := min (max 0 new_level_raw) t.capacity
    Except.ok
      { t with
        level := level'
        history := t.history ++ [[("level", level')]]
        logs := t.logs ++ [LogEntry.stepped control_input delta_time] }

/-- Python `WaterTank.reset(**kwargs)`: keeps or overrides `capacity`, `inflow`
and `outflow_coeff` via `kwargs.get`, sets `level = 0.0`, clears the
history, appends a `"Reset called"` log entry. -/
def WaterTank.reset (t : WaterTank) (kwargs : Params) : WaterTank :=
  { capacity := getNum kwargs "capacity" t.capacity
    inflow := getNum kwargs "inflow" t.inflow
    outflow_coeff := getNum kwargs "outflow_coeff" t.outflow_coeff
    level := 0
    history := []
    logs := t.logs ++ [LogEntry.resetCalled] }

/-- One `setattr(self, k, v)` of `WaterTank.update_params`, guarded by
`hasattr(self, k)`: any existing attribute can be overwritten; an
unknown name is ignored.  Assignment is modelled at matching types. -/
def WaterTank.setAttr (t : WaterTank) (k : String) (v : PyValue) : WaterTank :=
  if k = "capacity" then
    match v with
    | PyValue.num q => { t with capacity := q }
    | _ => t
  else if k = "level" then
    match v with
    | PyValue.num q => { t with level := q }
    | _ => t
  else if k = "inflow" then
    match v with
    | PyValue.num q => { t with inflow := q }
    | _ => t
  else if k = "outflow_coeff" then
    match v with
    | PyValue.num q => { t with outflow_coeff := q }
    | _ => t
  else if k = "history" then
    match v with
    | PyValue.snapshots h => { t with history := h }
    | _ => t
  else if k = "logs" then
    match v with
    | PyValue.logList l => { t with logs := l }
    | _ => t
  else t

/-- Python `WaterTank.update_params(**kwargs)`: `setattr` for every item of the
mapping (in order), then append one `"Params updated: ..."` log entry. -/
def WaterTank.update_params (t : WaterTank) (kwargs : Params) : WaterTank :=
  let t' := kwargs.foldl (fun acc kv => acc.setAttr kv.1 kv.2) t
  { t' with logs := t'.logs ++ [LogEntry.paramsUpdated kwargs] }

/-! ## RoomTemperature (`app/models/room_temperature.py`) -/

/-- The `RoomTemperature` model: attribute `temp` plus the base-class
`history` and `logs`. -/
structure RoomTemperature : Type where
  temp : ℚ
  history : List Snapshot
  logs : List LogEntry

/-- Python `RoomTemperature.__init__(initial_temp=20.0)`. -/
def RoomTemperature.make (initial_temp : ℚ) : RoomTemperature :=
  { temp := initial_temp
    history := []
    logs := [] }

/-- Python `RoomTemperature.get_state`: `{"temperature": self.temp}`. -/
def RoomTemperature.get_state (r : RoomTemperature) : Snapshot :=
  [("temperature", r.temp)]

/-- Python `RoomTemperature.step(control_input, delta_time)`: applies
`temp += 0.5 * control_input * delta_time - 0.1 * (temp - 20)`, appends
the new state to `history` and a log entry to `logs`.  The source
performs no check on `delta_time` (its docstring notwithstanding), so
the result is always `Except.ok`. -/
def RoomTemperature.step (r : RoomTemperature) (control_input delta_time : ℚ) :
    Except SimError RoomTemperature :=
  let temp' := r.temp + 0.5 * control_input * delta_time - 0.1 * (r.temp - 20)
  Except.ok
    { temp := temp'
      history := r.history ++ [[("temperature", temp')]]
      logs := r.logs ++ [LogEntry.stepped control_input delta_time] }

/-- Python `RoomTemperature.reset(**kwargs)`: `temp = kwargs.get("initial_temp",
20.0)` — the default is the literal `20.0`, not the construction-time
temperature — clears the history, appends a `"Reset called"` log entry. -/
def RoomTemperature.reset (r : RoomTemperature) (kwargs : Params) : RoomTemperature :=
  { temp := getNum kwargs "initial_temp" 20
    history := []
    logs := r.logs ++ [LogEntry.resetCalled] }

/-- Python `RoomTemperature.update_params(**kwargs)`: overwrites `temp` when the
mapping contains `"initial_temp"`, then appends one log entry. -/
def RoomTemperature.update_params (r : RoomTemperature) (kwargs : Params) : RoomTemperature :=
  let r' :=
    match alookup kwargs "initial_temp" with
    | some (PyValue.num q) => { r with temp := q }
    | _ => r
  { r' with logs := r'.logs ++ [LogEntry.paramsUpdated kwargs] }

/-! ## The polymorphic model interface (`app/models/system_model.py`)

The runtime manipulates model instances through the capability contract
only; `Model` is the sum of the two concrete model types. -/

/-- A model instance held by a session: either a `WaterTank` or a
`RoomTemperature`. -/
inductive Model : Type where
  | tank (t : WaterTank)
  | room (r : RoomTemperature)

/-- The registered model types (`main.py` registers `"water_tank"` and
`"room_temperature"`). -/
inductive ModelKind : Type where
  | water_tank
  | room_temperature
deriving DecidableEq

/-- The kind of a model instance. -/
def Model.kind : Model → ModelKind
  | Model.tank _ => ModelKind.water_tank
  | Model.room _ => ModelKind.room_temperature

/-- Dispatch of `model.step(control_input, delta_time)`.  The abstracted
`odeint` output `new_level_raw` is ignored by `RoomTemperature`. -/
def Model.step (m : Model) (control_input new_level_raw delta_time : ℚ) :
    Except SimError Model :=
  match m with
  | Model.tank t => (t.step control_input new_level_raw delta_time).map Model.tank
  | Model.room r => (r.step control_input delta_time).map Model.room

/-- Dispatch of `model.get_state()`. -/
def Model.get_state : Model → Snapshot
  | Model.tank t => t.get_state
  | Model.room r => r.get_state

/-- Dispatch of `model.history`. -/
def Model.history : Model → List Snapshot
  | Model.tank t => t.history
  | Model.room r => r.history

/-- Dispatch of `model.logs`. -/
def Model.logs : Model → List LogEntry
  | Model.tank t => t.logs
  | Model.room r => r.logs

/-- Dispatch of `model.reset(**kwargs)`. -/
def Model.reset (m : Model) (kwargs : Params) : Model :=
  match m with
  | Model.tank t => Model.tank (t.reset kwargs)
  | Model.room r => Model.room (r.reset kwargs)

/-- Dispatch of `model.update_params(**kwargs)`. -/
def Model.update_params (m : Model) (kwargs : Params) : Model :=
  match m with
  | Model.tank t => Model.tank (t.update_params kwargs)
  | Model.room r => Model.room (r.update_params kwargs)

/-- Python `model_cls(**params)` for a registered model class: `WaterTank` reads
`capacity`, `inflow` and `outflow_coeff` (defaults `100.0`, `0.0`,
`0.1`), `RoomTemperature` reads `initial_temp` (default `20.0`). -/
def constructModel (kind : ModelKind) (params : Params) : Except SimError Model :=
  match kind with
  | ModelKind.water_tank =>
      (WaterTank.make (getNum params "capacity" 100) (getNum params "inflow" 0)
        (getNum params "outflow_coeff" 0.1)).map Model.tank
  | ModelKind.room_temperature =>
      Except.ok (Model.room (RoomTemperature.make (getNum params "initial_temp" 20)))

/-! ## The in-memory session store (`app/services/session_store.py`)

Only the in-process backend is modelled; the Redis backend is external
collaboration the spec places out of scope.  The stored value is the
`(model_name, pickled_model, last_access)` triple of the runtime;
pickling a pure value round-trips identically. -/

/-- The value the runtime stores per session:
`(model_name, model, last_access)`. -/
abbrev SessionValue : Type := String × Model × ℤ

/-- One slot of `InMemorySessionStore._sessions`: the stored
`(value, ex, expiry)` triple written by `set`. -/
structure StoreEntry : Type where
  value : SessionValue
  ex : Option ℤ
  expiry : Option ℤ

/-- Python `InMemorySessionStore`: a dictionary from key to entry, kept as an
association list with unique keys. -/
structure InMemorySessionStore : Type where
  sessions : List (String × StoreEntry)

/-- Dictionary update: replace the entry of an existing key in place,
append a new key at the end (Python `dict` assignment). -/
def aset {α : Type} : List (String × α) → String → α → List (String × α)
  | [], key, v => [(key, v)]
  | (k, w) :: rest, key, v =>
      if k = key then (key, v) :: rest else (k, w) :: aset rest key v

/-- Dictionary deletion of the (unique) occurrence of a key
(Python `del d[key]`). -/
def adel {α : Type} : List (String × α) → String → List (String × α)
  | [], _ => []
  | (k, w) :: rest, key =>
      if k = key then rest else (k, w) :: adel rest key

/-- The keys of a dictionary are pairwise distinct — true of every
reachable store state, taken as a hypothesis where a proof needs it. -/
def keysNodup {α : Type} (l : List (String × α)) : Prop :=
  (l.map Prod.fst).Nodup

/-- Python `InMemorySessionStore.set(key, value, ex)`: stores
`(value, ex, None if ex is None else now + ex)`. -/
def InMemorySessionStore.set (s : InMemorySessionStore) (key : String)
    (value : SessionValue) (ex : Option ℤ) (now : ℤ) : InMemorySessionStore :=
  { sessions :=
      aset s.sessions key
        { value := value, ex := ex, expiry := ex.map (fun e => now + e) } }

/-- Python `InMemorySessionStore.get(key)`: `None` when the key is missing; when
the entry's expiry has passed (`now > expiry`) the entry is deleted and
`None` returned; otherwise the stored value.  Returns the possibly
mutated store alongside the result. -/
def InMemorySessionStore.get (s : InMemorySessionStore) (key : String) (now : ℤ) :
    Option SessionValue × InMemorySessionStore :=
  match alookup s.sessions key with
  | none => (none, s)
  | some entry =>
      match entry.expiry with
      | some e =>
          if e < now then (none, { sessions := adel s.sessions key })
          else (some entry.value, s)
      | none => (some entry.value, s)

/-- Python `InMemorySessionStore.delete(key)`: removes the entry if present. -/
def InMemorySessionStore.delete (s : InMemorySessionStore) (key : String) :
    InMemorySessionStore :=
  { sessions := adel s.sessions key }

/-! ## The session runtime (`app/services/simulation_manager.py`)

Each public operation takes the current instant `now : ℤ` — the source
samples `time.time()` inside an operation; the embedding uses one
instant per operation.  Session identifiers (`uuid4()`) are abstracted
as `Nat` drawn from an external supply: `create_session` takes the
fresh identifier as an argument. -/

/-- Python `SimulationManager.SESSION_TIMEOUT_SECONDS = 30 * 60`. -/
def SESSION_TIMEOUT_SECONDS : ℤ := 30 * 60

/-- The storage key of a session: `f"sim_session:{session_id}"`. -/
def sessionKey (sid : Nat) : String :=
  "sim_session:" ++ toString sid

/-- The session runtime: a model registry and the session store
(in-memory persistence mode). -/
structure SimulationManager : Type where
  model_registry : List (String × ModelKind)
  store : InMemorySessionStore

/-- Python `SimulationManager._cleanup_expired_sessions`: in memory mode, delete
every entry whose expiry has passed (`now > expiry`).  The source loops
over the keys deleting one by one; over unique keys this is the filter
keeping the non-expired entries. -/
def SimulationManager.cleanup_expired_sessions (m : SimulationManager) (now : ℤ) :
    SimulationManager :=
  { m with
    store :=
      { sessions :=
          m.store.sessions.filter fun kv =>
            match kv.2.expiry with
            | none => true
            | some e => ! decide (e < now) } }

/-- Python `SimulationManager.get_model(session_id)`: look the session up in the
store (`ValueError` when absent), then re-persist the model with a fresh
last-access time and TTL. -/
def SimulationManager.get_model (m : SimulationManager) (sid : Nat) (now : ℤ) :
    Except SimError Model × SimulationManager :=
  match m.store.get (sessionKey sid) now with
  | (none, store') =>
      (Except.error (SimError.unknownSession sid), { m with store := store' })
  | (some v, store') =>
      (Except.ok v.2.1,
        { m with
          store :=
            store'.set (sessionKey sid) (v.1, v.2.1, now)
              (some SESSION_TIMEOUT_SECONDS) now })

/-- Python `SimulationManager._save_model(session_id, model)`: re-read the entry
for its model name (`ValueError` when absent), then persist the given
model with a fresh last-access time and TTL. -/
def SimulationManager.save_model (m : SimulationManager) (sid : Nat) (model : Model)
    (now : ℤ) : Except SimError Unit × SimulationManager :=
  match m.store.get (sessionKey sid) now with
  | (none, store') =>
      (Except.error (SimError.unknownSession sid), { m with store := store' })
  | (some v, store') =>
      (Except.ok (),
        { m with
          store :=
            store'.set (sessionKey sid) (v.1, model, now)
              (some SESSION_TIMEOUT_SECONDS) now })

/-- Python `SimulationManager.create_session(model_name, params)`: sweep expired
sessions, resolve the model name (`ValueError` when unregistered),
construct the instance, store it under a fresh identifier with the TTL,
return the identifier. -/
def SimulationManager.create_session (m : SimulationManager) (model_name : String)
    (params : Params) (fresh : Nat) (now : ℤ) :
    Except SimError Nat × SimulationManager :=
  let m1 := m.cleanup_expired_sessions now
  match alookup m1.model_registry model_name with
  | none => (Except.error (SimError.unknownModel model_name), m1)
  | some kind =>
      match constructModel kind params with
      | Except.error e => (Except.error e, m1)
      | Except.ok model =>
          (Except.ok fresh,
            { m1 with
              store :=
                m1.store.set (sessionKey fresh) (model_name, model, now)
                  (some SESSION_TIMEOUT_SECONDS) now })

/-- Python `SimulationManager.step(session_id, control_input, delta_time)`:
sweep, look up, `model.step(...)`, persist, return `model.get_state()`.
A model-contract failure propagates without the persist. -/
def SimulationManager.step (m : SimulationManager) (sid : Nat)
    (control_input new_level_raw delta_time : ℚ) (now : ℤ) :
    Except SimError Snapshot × SimulationManager :=
  let m1 := m.cleanup_expired_sessions now
  match m1.get_model sid now with
  | (Except.error e, m2) => (Except.error e, m2)
  | (Except.ok model, m2) =>
      match model.step control_input new_level_raw delta_time with
      | Except.error e => (Except.error e, m2)
      | Except.ok model' =>
          match m2.save_model sid model' now with
          | (Except.error e, m3) => (Except.error e, m3)
          | (Except.ok _, m3) => (Except.ok model'.get_state, m3)

/-- Python `SimulationManager.get_state(session_id)`: sweep, look up, return the
current state. -/
def SimulationManager.get_state (m : SimulationManager) (sid : Nat) (now : ℤ) :
    Except SimError Snapshot × SimulationManager :=
  let m1 := m.cleanup_expired_sessions now
  match m1.get_model sid now with
  | (Except.error e, m2) => (Except.error e, m2)
  | (Except.ok model, m2) => (Except.ok model.get_state, m2)

/-- Python `SimulationManager.get_history(session_id)`: sweep, look up, return a
copy of the history. -/
def SimulationManager.get_history (m : SimulationManager) (sid : Nat) (now : ℤ) :
    Except SimError (List Snapshot) × SimulationManager :=
  let m1 := m.cleanup_expired_sessions now
  match m1.get_model sid now with
  | (Except.error e, m2) => (Except.error e, m2)
  | (Except.ok model, m2) => (Except.ok model.history, m2)

/-- Python `SimulationManager.get_logs(session_id)`: sweep, look up, return a
copy of the logs. -/
def SimulationManager.get_logs (m : SimulationManager) (sid : Nat) (now : ℤ) :
    Except SimError (List LogEntry) × SimulationManager :=
  let m1 := m.cleanup_expired_sessions now
  match m1.get_model sid now with
  | (Except.error e, m2) => (Except.error e, m2)
  | (Except.ok model, m2) => (Except.ok model.logs, m2)

/-- Python `SimulationManager.reset(session_id, params)`: sweep, look up,
`model.reset(**params)`, persist, return the fresh state. -/
def SimulationManager.reset (m : SimulationManager) (sid : Nat) (params : Params)
    (now : ℤ) : Except SimError Snapshot × SimulationManager :=
  let m1 := m.cleanup_expired_sessions now
  match m1.get_model sid now with
  | (Except.error e, m2) => (Except.error e, m2)
  | (Except.ok model, m2) =>
      let model' := model.reset params
      match m2.save_model sid model' now with
      | (Except.error e, m3) => (Except.error e, m3)
      | (Except.ok _, m3) => (Except.ok model'.get_state, m3)

/-- Python `SimulationManager.update_params(session_id, params)`: sweep, look
up, `model.update_params(**params)`, persist, return the fresh state. -/
def SimulationManager.update_params (m : SimulationManager) (sid : Nat)
    (params : Params) (now : ℤ) : Except SimError Snapshot × SimulationManager :=
  let m1 := m.cleanup_expired_sessions now
  match m1.get_model sid now with
  | (Except.error e, m2) => (Except.error e, m2)
  | (Except.ok model, m2) =>
      let model' := model.update_params params
      match m2.save_model sid model' now with
      | (Except.error e, m3) => (Except.error e, m3)
      | (Except.ok _, m3) => (Except.ok model'.get_state, m3)

/-- The six per-session runtime operations, used to state properties
uniformly over every entry point. -/
inductive RuntimeOp : Type where
  | step (control_input new_level_raw delta_time : ℚ)
  | get_state
  | get_history
  | get_logs
  | reset (params : Params)
  | update_params (params : Params)

/-- The successful outcome of a runtime operation. -/
inductive OpResult : Type where
  | state (s : Snapshot)
  | history (h : List Snapshot)
  | logs (l : List LogEntry)

/-- Uniform dispatch of a per-session runtime operation. -/
def runOp (op : RuntimeOp) (m : SimulationManager) (sid : Nat) (now : ℤ) :
    Except SimError OpResult × SimulationManager :=
  match op with
  | RuntimeOp.step u raw dt =>
      let (r, m') := m.step sid u raw dt now
      (r.map OpResult.state, m')
  | RuntimeOp.get_state =>
      let (r, m') := m.get_state sid now
      (r.map OpResult.state, m')
  | RuntimeOp.get_history =>
      let (r, m') := m.get_history sid now
      (r.map OpResult.history, m')
  | RuntimeOp.get_logs =>
      let (r, m') := m.get_logs sid now
      (r.map OpResult.logs, m')
  | RuntimeOp.reset params =>
      let (r, m') := m.reset sid params now
      (r.map OpResult.state, m')
  | RuntimeOp.update_params params =>
      let (r, m') := m.update_params sid params now
      (r.map OpResult.state, m')

/-! ## Derived notions used by the properties -/

/-- A session identifier is unavailable at instant `now` when its key is
absent from the store (never created or deleted) or its entry's expiry
has passed (TTL elapsed since last access). -/
def sessionUnavailable (m : SimulationManager) (sid : Nat) (now : ℤ) : Bool :=
  match alookup m.store.sessions (sessionKey sid) with
  | none => true
  | some entry =>
      match entry.expiry with
      | none => false
      | some e => decide (e < now)

/-- The store entry of a session, if any. -/
def storedSession (m : SimulationManager) (sid : Nat) : Option StoreEntry :=
  alookup m.store.sessions (sessionKey sid)

/-- The persisted model-name/model pair of a session (dropping the
last-access time), if any. -/
def storedModel (m : SimulationManager) (sid : Nat) : Option (String × Model) :=
  (storedSession m sid).map fun e => (e.value.1, e.value.2.1)

/-- A mutating model-contract operation, used to state properties over
arbitrary operation sequences on one model instance.  (`get_state`,
`get_history` and `get_logs` are pure reads and mutate nothing.) -/
inductive ModelOp : Type where
  | step (control_input new_level_raw delta_time : ℚ)
  | reset (kwargs : Params)
  | update_params (kwargs : Params)

/-- Apply one operation to a model; a raised model error (only `step` can
raise) leaves the instance unchanged. -/
def Model.applyOp (m : Model) : ModelOp → Model
  | ModelOp.step u raw dt =>
      match m.step u raw dt with
      | Except.ok m' => m'
      | Except.error _ => m
  | ModelOp.reset kw => m.reset kw
  | ModelOp.update_params kw => m.update_params kw

/-- Apply a sequence of operations from left to right. -/
def Model.runOps (m : Model) (ops : List ModelOp) : Model :=
  ops.foldl Model.applyOp m

/-- Apply one operation to a `WaterTank` (the tank-specific analogue of
`Model.applyOp`). -/
def WaterTank.applyOp (t : WaterTank) : ModelOp → WaterTank
  | ModelOp.step u raw dt =>
      match t.step u raw dt with
      | Except.ok t' => t'
      | Except.error _ => t
  | ModelOp.reset kw => t.reset kw
  | ModelOp.update_params kw => t.update_params kw

/-- Apply a sequence of operations to a `WaterTank`. -/
def WaterTank.runOps (t : WaterTank) (ops : List ModelOp) : WaterTank :=
  ops.foldl WaterTank.applyOp t

/-- Whether a `step` call with the given `delta_time` succeeds: the tank
rejects `delta_time <= 0`, the room model never raises. -/
def stepSucceeds (k : ModelKind) (delta_time : ℚ) : Bool :=
  match k with
  | ModelKind.water_tank => decide (0 < delta_time)
  | ModelKind.room_temperature => true

/-- Modelled from the spec's words: the number of successful `step`
calls since the most recent `reset` in the sequence, starting from a
given prior count (the history length at the start). -/
def stepsSinceReset (k : ModelKind) : Nat → List ModelOp → Nat
  | n, [] => n
  | n, ModelOp.step _ _ dt :: rest =>
      stepsSinceReset k (if stepSucceeds k dt then n + 1 else n) rest
  | _, ModelOp.reset _ :: rest => stepsSinceReset k 0 rest
  | n, ModelOp.update_params _ :: rest => stepsSinceReset k n rest

/-- The level invariant of a water tank: the level lies in
`[0, capacity]` and the capacity is positive. -/
def WaterTank.Inv (t : WaterTank) : Prop :=
  0 ≤ t.level ∧ t.level ≤ t.capacity ∧ 0 < t.capacity

/-- An operation that never touches the level directly and keeps the
capacity positive: a `step`, or a `reset` whose `capacity` override — if
any — is positive.  (`update_params` can set `level` directly and is the
subject of its own property.) -/
def levelSafeOp : ModelOp → Prop
  | ModelOp.step _ _ _ => True
  | ModelOp.reset kw => ∀ q, alookup kw "capacity" = some (PyValue.num q) → 0 < q
  | ModelOp.update_params _ => False

/-! ## Concrete sample objects for closed instantiations -/

/-- A freshly constructed default water tank (`WaterTank()`). -/
def sampleTank : WaterTank :=
  { capacity := 100, level := 0, inflow := 0, outflow_coeff := 0.1
    history := [], logs := [] }

/-- A registry binding both registered model names (`main.py`). -/
def sampleRegistry : List (String × ModelKind) :=
  [("water_tank", ModelKind.water_tank),
   ("room_temperature", ModelKind.room_temperature)]

/-- A store entry for a default tank last accessed at instant `0`. -/
def sampleEntry : StoreEntry :=
  { value := ("water_tank", Model.tank sampleTank, 0)
    ex := some SESSION_TIMEOUT_SECONDS
    expiry := some SESSION_TIMEOUT_SECONDS }

/-- A runtime holding one live session with identifier `1`. -/
def sampleMgr : SimulationManager :=
  { model_registry := sampleRegistry
    store := { sessions := [(sessionKey 1, sampleEntry)] } }

/-- A runtime with an empty store. -/
def emptyMgr : SimulationManager :=
  { model_registry := sampleRegistry
    store := { sessions := [] } }

/-- A store entry whose expiry instant `10` has already passed at any
later instant. -/
def sampleExpiredEntry : StoreEntry :=
  { value := ("water_tank", Model.tank sampleTank, 0)
    ex := some 10
    expiry := some 10 }

/-- A store holding one expired entry under key `"k1"`. -/
def sampleExpiredStore : InMemorySessionStore :=
  { sessions := [("k1", sampleExpiredEntry)] }

/-! ## Support lemmas on dictionaries -/

theorem alookup_aset_self {α : Type} (l : List (String × α)) (k : String) (v : α) :
    alookup (aset l k v) k = some v := by
  induction l with
  | nil => simp [aset, alookup]
  | cons kv rest ih =>
      obtain ⟨k0, w⟩ := kv
      by_cases h : k0 = k
      · simp [aset, h, alookup]
      · simp [aset, h, alookup, ih]

theorem alookup_aset_ne {α : Type} (l : List (String × α)) (k k' : String) (v : α)
    (h : k' ≠ k) : alookup (aset l k v) k' = alookup l k' := by
  have hk : k ≠ k' := Ne.symm h
  induction l with
  | nil => simp [aset, alookup, hk]
  | cons kv rest ih =>
      obtain ⟨k0, w⟩ := kv
      by_cases h0 : k0 = k
      · subst h0
        simp [aset, alookup, hk]
      · simp [aset, alookup, h0, ih]

theorem alookup_of_not_mem_keys {α : Type} (l : List (String × α)) (k : String)
    (h : k ∉ l.map Prod.fst) : alookup l k = none := by
  induction l with
  | nil => rfl
  | cons kv rest ih =>
      obtain ⟨k0, w⟩ := kv
      simp only [List.map_cons, List.mem_cons] at h
      push_neg at h
      have h1 : k0 ≠ k := Ne.symm h.1
      simp [alookup, h1, ih h.2]

theorem alookup_filter_none {α : Type} (l : List (String × α)) (p : String × α → Bool)
    (k : String) (h : alookup l k = none) : alookup (l.filter p) k = none := by
  induction l with
  | nil => rfl
  | cons kv rest ih =>
      obtain ⟨k0, w⟩ := kv
      by_cases h0 : k0 = k
      · simp [alookup, h0] at h
      · simp only [alookup, if_neg h0] at h
        by_cases hp : p (k0, w)
        · simp [List.filter, hp, alookup, h0, ih h]
        · simp [List.filter, hp, ih h]

theorem alookup_filter_keep {α : Type} (l : List (String × α)) (p : String × α → Bool)
    (k : String) (v : α) (h : alookup l k = some v) (hp : p (k, v) = true) :
    alookup (l.filter p) k = some v := by
  induction l with
  | nil => simp [alookup] at h
  | cons kv rest ih =>
      obtain ⟨k0, w⟩ := kv
      by_cases h0 : k0 = k
      · subst h0
        simp only [alookup, if_pos rfl] at h
        obtain rfl : w = v := by injection h
        simp [List.filter, hp, alookup]
      · simp only [alookup, if_neg h0] at h
        by_cases hpw : p (k0, w)
        · simp [List.filter, hpw, alookup, h0, ih h]
        · simp [List.filter, hpw, ih h]

theorem alookup_filter_drop {α : Type} (l : List (String × α)) (p : String × α → Bool)
    (k : String) (v : α) (hnd : keysNodup l) (h : alookup l k = some v)
    (hp : p (k, v) = false) : alookup (l.filter p) k = none := by
  induction l with
  | nil => simp [alookup] at h
  | cons kv rest ih =>
      obtain ⟨k0, w⟩ := kv
      simp only [keysNodup, List.map_cons, List.nodup_cons] at hnd
      by_cases h0 : k0 = k
      · subst h0
        simp only [alookup, if_pos rfl] at h
        obtain rfl : w = v := by injection h
        have hrest : alookup rest k0 = none :=
          alookup_of_not_mem_keys rest k0 hnd.1
        simp [List.filter, hp, alookup_filter_none rest p k0 hrest]
      · simp only [alookup, if_neg h0] at h
        have ih' := ih hnd.2 h
        by_cases hpw : p (k0, w)
        · simp [List.filter, hpw, alookup, h0, ih']
        · simp [List.filter, hpw, ih']

theorem alookup_filter_some {α : Type} (l : List (String × α)) (p : String × α → Bool)
    (k : String) (v : α) (hnd : keysNodup l) (h : alookup (l.filter p) k = some v) :
    alookup l k = some v := by
  induction l with
  | nil => simp [List.filter, alookup] at h
  | cons kv rest ih =>
      obtain ⟨k0, w⟩ := kv
      simp only [keysNodup, List.map_cons, List.nodup_cons] at hnd
      by_cases h0 : k0 = k
      · subst h0
        by_cases hpw : p (k0, w)
        · simp only [List.filter, hpw, alookup, if_pos rfl] at h ⊢
          exact h
        · have hrest : alookup rest k0 = none :=
            alookup_of_not_mem_keys rest k0 hnd.1
          simp [List.filter, hpw, alookup_filter_none rest p k0 hrest] at h
      · by_cases hpw : p (k0, w)
        · simp only [List.filter, hpw, alookup, if_neg h0] at h ⊢
          exact ih hnd.2 h
        · simp only [List.filter, hpw] at h
          simp only [alookup, if_neg h0]
          exact ih hnd.2 h

theorem alookup_filter_isSome {α : Type} (l : List (String × α)) (p : String × α → Bool)
    (k : String) (h : alookup (l.filter p) k ≠ none) : alookup l k ≠ none := by
  intro hnone
  exact h (alookup_filter_none l p k hnone)

theorem alookup_adel_self {α : Type} (l : List (String × α)) (k : String)
    (hnd : keysNodup l) : alookup (adel l k) k = none := by
  induction l with
  | nil => rfl
  | cons kv rest ih =>
      obtain ⟨k0, w⟩ := kv
      simp only [keysNodup, List.map_cons, List.nodup_cons] at hnd
      by_cases h0 : k0 = k
      · subst h0
        simp only [adel, if_pos rfl]
        exact alookup_of_not_mem_keys rest k0 hnd.1
      · simp [adel, h0, alookup, ih hnd.2]

/-! ## Support lemmas on the runtime pipeline -/

theorem cleanup_sessions_eq (m : SimulationManager) (now : ℤ) :
    (m.cleanup_expired_sessions now).store.sessions =
      m.store.sessions.filter (fun kv =>
        match kv.2.expiry with
        | none => true
        | some e => ! decide (e < now)) := rfl

theorem lookup_cleanup_unavailable (m : SimulationManager) (sid : Nat) (now : ℤ)
    (hnd : keysNodup m.store.sessions) (h : sessionUnavailable m sid now = true) :
    alookup (m.cleanup_expired_sessions now).store.sessions (sessionKey sid) = none := by
  rw [cleanup_sessions_eq]
  unfold sessionUnavailable at h
  cases hl : alookup m.store.sessions (sessionKey sid) with
  | none => exact alookup_filter_none _ _ _ hl
  | some entry =>
      cases hexp : entry.expiry with
      | none => simp [hl, hexp] at h
      | some e =>
          simp only [hl, hexp, decide_eq_true_eq] at h
          apply alookup_filter_drop _ _ _ _ hnd hl
          simp [hexp, h]

theorem lookup_cleanup_available (m : SimulationManager) (sid : Nat) (now : ℤ)
    (entry : StoreEntry)
    (hl : alookup m.store.sessions (sessionKey sid) = some entry)
    (h : sessionUnavailable m sid now = false) :
    alookup (m.cleanup_expired_sessions now).store.sessions (sessionKey sid) =
      some entry := by
  rw [cleanup_sessions_eq]
  unfold sessionUnavailable at h
  apply alookup_filter_keep _ _ _ _ hl
  cases hexp : entry.expiry with
  | none => simp [hexp]
  | some e =>
      simp only [hl, hexp, decide_eq_false_iff_not] at h
      simp [hexp, h]

theorem sessionUnavailable_false_lookup (m : SimulationManager) (sid : Nat) (now : ℤ)
    (h : sessionUnavailable m sid now = false) :
    ∃ entry, alookup m.store.sessions (sessionKey sid) = some entry := by
  unfold sessionUnavailable at h
  cases hl : alookup m.store.sessions (sessionKey sid) with
  | none => rw [hl] at h; simp at h
  | some entry => exact ⟨entry, rfl⟩

theorem sessionUnavailable_false_not_expired (m : SimulationManager) (sid : Nat)
    (now : ℤ) (entry : StoreEntry)
    (hl : alookup m.store.sessions (sessionKey sid) = some entry)
    (h : sessionUnavailable m sid now = false) :
    entry.expiry = none ∨ ∃ e, entry.expiry = some e ∧ ¬ e < now := by
  unfold sessionUnavailable at h
  cases hexp : entry.expiry with
  | none => exact Or.inl rfl
  | some e =>
      simp only [hl, hexp, decide_eq_false_iff_not] at h
      exact Or.inr ⟨e, rfl, h⟩

theorem get_model_absent (m : SimulationManager) (sid : Nat) (now : ℤ)
    (h : alookup m.store.sessions (sessionKey sid) = none) :
    m.get_model sid now = (Except.error (SimError.unknownSession sid), m) := by
  simp [SimulationManager.get_model, InMemorySessionStore.get, h]

theorem get_model_live (m : SimulationManager) (sid : Nat) (now : ℤ)
    (entry : StoreEntry) (e : ℤ)
    (h : alookup m.store.sessions (sessionKey sid) = some entry)
    (hexp : entry.expiry = some e) (hnlt : ¬ e < now) :
    m.get_model sid now =
      (Except.ok entry.value.2.1,
       { m with
         store :=
           m.store.set (sessionKey sid) (entry.value.1, entry.value.2.1, now)
             (some SESSION_TIMEOUT_SECONDS) now }) := by
  simp [SimulationManager.get_model, InMemorySessionStore.get, h, hexp, hnlt]

theorem get_model_noexpiry (m : SimulationManager) (sid : Nat) (now : ℤ)
    (entry : StoreEntry)
    (h : alookup m.store.sessions (sessionKey sid) = some entry)
    (hexp : entry.expiry = none) :
    m.get_model sid now =
      (Except.ok entry.value.2.1,
       { m with
         store :=
           m.store.set (sessionKey sid) (entry.value.1, entry.value.2.1, now)
             (some SESSION_TIMEOUT_SECONDS) now }) := by
  simp [SimulationManager.get_model, InMemorySessionStore.get, h, hexp]

theorem get_model_expired (m : SimulationManager) (sid : Nat) (now : ℤ)
    (entry : StoreEntry) (e : ℤ)
    (h : alookup m.store.sessions (sessionKey sid) = some entry)
    (hexp : entry.expiry = some e) (hlt : e < now) :
    m.get_model sid now =
      (Except.error (SimError.unknownSession sid),
       { m with store := { sessions := adel m.store.sessions (sessionKey sid) } }) := by
  simp [SimulationManager.get_model, InMemorySessionStore.get, h, hexp, hlt]

theorem save_model_live (m : SimulationManager) (sid : Nat) (model : Model) (now : ℤ)
    (entry : StoreEntry) (e : ℤ)
    (h : alookup m.store.sessions (sessionKey sid) = some entry)
    (hexp : entry.expiry = some e) (hnlt : ¬ e < now) :
    m.save_model sid model now =
      (Except.ok (),
       { m with
         store :=
           m.store.set (sessionKey sid) (entry.value.1, model, now)
             (some SESSION_TIMEOUT_SECONDS) now }) := by
  simp [SimulationManager.save_model, InMemorySessionStore.get, h, hexp, hnlt]

theorem lookup_store_set_self (s : InMemorySessionStore) (key : String)
    (v : SessionValue) (ex : Option ℤ) (now : ℤ) :
    alookup (s.set key v ex now).sessions key =
      some { value := v, ex := ex, expiry := ex.map fun e => now + e } := by
  simp [InMemorySessionStore.set, alookup_aset_self]

theorem Model.step_error_eq (m : Model) (u raw dt : ℚ) (e : SimError)
    (h : m.step u raw dt = Except.error e) : e = SimError.invalidTimeStep := by
  cases m with
  | tank t =>
      by_cases hdt : dt ≤ 0
      · simp [Model.step, WaterTank.step, hdt, Except.map] at h
        exact h.symm
      · simp [Model.step, WaterTank.step, hdt, Except.map] at h
  | room r => simp [Model.step, RoomTemperature.step, Except.map] at h

theorem timeout_not_lt (now : ℤ) : ¬ now + SESSION_TIMEOUT_SECONDS < now := by
  unfold SESSION_TIMEOUT_SECONDS
  omega

/-! ## The claims -/

/-- Claim C2 (code bug in `RoomTemperature.step`): the claim — and the
method's own docstring — require a `delta_time <= 0` to fail with
`InvalidTimeStep`, but only `WaterTank.step` performs the check.  At
`delta_time = -1` the room model returns normally, mutates the
temperature and appends a history snapshot and a log entry, while the
tank raises as documented. -/
theorem room_step_missing_delta_check :
    (RoomTemperature.make 20).step 0 (-1) =
      Except.ok
        { temp := 20
          history := [[("temperature", 20)]]
          logs := [LogEntry.stepped 0 (-1)] } ∧
    sampleTank.step 0 0 (-1) = Except.error SimError.invalidTimeStep := by
  constructor
  · simp only [RoomTemperature.make, RoomTemperature.step]
    norm_num
  · simp [sampleTank, WaterTank.step]

/-- Claim C3 counterexample: `reset` with no parameters does not restore
the construction-time state.  A room constructed at temperature `30`
resets to the literal default `20`, not to `30`. -/
theorem room_reset_not_construction_values :
    ((RoomTemperature.make 30).reset []).temp = 20 ∧
    (RoomTemperature.make 30).temp = 30 ∧ (20 : ℚ) ≠ 30 := by
  refine ⟨rfl, rfl, by norm_num⟩

/-- Claim C3 (amended): `reset` always leaves the history empty, appends
a log entry recording the reset, and restores the state to the model's
construction DEFAULT values — or to the supplied override parameters —
rather than to the construction-time arguments: the tank's level becomes
`0`, the room's temperature becomes the supplied `initial_temp` or the
default `20`. -/
theorem reset_restores_defaults (mo : Model) (kwargs : Params) :
    (mo.reset kwargs).history = [] ∧
    (mo.reset kwargs).logs = mo.logs ++ [LogEntry.resetCalled] ∧
    (mo.reset kwargs).get_state =
      (match mo with
       | Model.tank _ => [("level", 0)]
       | Model.room _ => [("temperature", getNum kwargs "initial_temp" 20)]) := by
  cases mo <;>
    simp [Model.reset, Model.history, Model.logs, Model.get_state,
      WaterTank.reset, RoomTemperature.reset, WaterTank.get_state,
      RoomTemperature.get_state]

theorem alookup_cons_none {α : Type} (k key : String) (v : α)
    (rest : List (String × α)) :
    alookup ((k, v) :: rest) key = none ↔ k ≠ key ∧ alookup rest key = none := by
  by_cases hk : k = key <;> simp [alookup, hk]

theorem setAttr_fields (t : WaterTank) (k : String) (v : PyValue) :
    (k ≠ "capacity" → (t.setAttr k v).capacity = t.capacity) ∧
    (k ≠ "level" → (t.setAttr k v).level = t.level) ∧
    (k ≠ "inflow" → (t.setAttr k v).inflow = t.inflow) ∧
    (k ≠ "outflow_coeff" → (t.setAttr k v).outflow_coeff = t.outflow_coeff) ∧
    (k ≠ "history" → (t.setAttr k v).history = t.history) ∧
    (k ≠ "logs" → (t.setAttr k v).logs = t.logs) := by
  unfold WaterTank.setAttr
  split_ifs with h1 h2 h3 h4 h5 h6 <;> cases v <;> simp_all

theorem tank_fold_update_frame (kwargs : Params) :
    ∀ t : WaterTank,
      (alookup kwargs "capacity" = none →
        (kwargs.foldl (fun acc kv => acc.setAttr kv.1 kv.2) t).capacity = t.capacity) ∧
      (alookup kwargs "level" = none →
        (kwargs.foldl (fun acc kv => acc.setAttr kv.1 kv.2) t).level = t.level) ∧
      (alookup kwargs "inflow" = none →
        (kwargs.foldl (fun acc kv => acc.setAttr kv.1 kv.2) t).inflow = t.inflow) ∧
      (alookup kwargs "outflow_coeff" = none →
        (kwargs.foldl (fun acc kv => acc.setAttr kv.1 kv.2) t).outflow_coeff =
          t.outflow_coeff) ∧
      (alookup kwargs "history" = none →
        (kwargs.foldl (fun acc kv => acc.setAttr kv.1 kv.2) t).history = t.history) ∧
      (alookup kwargs "logs" = none →
        (kwargs.foldl (fun acc kv => acc.setAttr kv.1 kv.2) t).logs = t.logs) := by
  induction kwargs with
  | nil => intro t; simp [alookup]
  | cons kv rest ih =>
      intro t
      obtain ⟨k, v⟩ := kv
      refine ⟨?_, ?_, ?_, ?_, ?_, ?_⟩ <;> intro hk <;>
        rw [alookup_cons_none] at hk <;> rw [List.foldl_cons]
      · rw [(ih (t.setAttr k v)).1 hk.2, (setAttr_fields t k v).1 hk.1]
      · rw [(ih (t.setAttr k v)).2.1 hk.2, (setAttr_fields t k v).2.1 hk.1]
      · rw [(ih (t.setAttr k v)).2.2.1 hk.2, (setAttr_fields t k v).2.2.1 hk.1]
      · rw [(ih (t.setAttr k v)).2.2.2.1 hk.2, (setAttr_fields t k v).2.2.2.1 hk.1]
      · rw [(ih (t.setAttr k v)).2.2.2.2.1 hk.2, (setAttr_fields t k v).2.2.2.2.1 hk.1]
      · rw [(ih (t.setAttr k v)).2.2.2.2.2 hk.2, (setAttr_fields t k v).2.2.2.2.2 hk.1]

/-- Claim C7 counterexample: a `reconfigure` mapping that names
`"history"` does NOT leave the history intact — `WaterTank.update_params`
overwrites the record.  (The claim universally quantifies over every
parameter mapping.) -/
theorem update_params_history_not_intact :
    (sampleTank.update_params
        [("history", PyValue.snapshots [[("level", 7)]])]).history =
      [[("level", 7)]] ∧
    sampleTank.history = [] := by
  constructor
  · simp [WaterTank.update_params, WaterTank.setAttr, sampleTank]
  · rfl

/-- Claim C7 (amended): for every parameter mapping that does not name
the internal records `"history"` or `"logs"` (for `WaterTank` those keys
overwrite the records, see the counterexample and C10), `update_params`
updates only the named fields, leaves the history unchanged, ignores
unrecognized parameter names without error (the operation is total and
the frame conjuncts leave every field untouched), and appends exactly
one log entry recording the given parameters. -/
theorem update_params_frame (t : WaterTank) (r : RoomTemperature) (kwargs : Params)
    (hh : alookup kwargs "history" = none) (hl : alookup kwargs "logs" = none) :
    (t.update_params kwargs).history = t.history ∧
    (t.update_params kwargs).logs = t.logs ++ [LogEntry.paramsUpdated kwargs] ∧
    (alookup kwargs "capacity" = none → (t.update_params kwargs).capacity = t.capacity) ∧
    (alookup kwargs "level" = none → (t.update_params kwargs).level = t.level) ∧
    (alookup kwargs "inflow" = none → (t.update_params kwargs).inflow = t.inflow) ∧
    (alookup kwargs "outflow_coeff" = none →
      (t.update_params kwargs).outflow_coeff = t.outflow_coeff) ∧
    (r.update_params kwargs).history = r.history ∧
    (r.update_params kwargs).logs = r.logs ++ [LogEntry.paramsUpdated kwargs] ∧
    (alookup kwargs "initial_temp" = none → (r.update_params kwargs).temp = r.temp) := by
  have hf := tank_fold_update_frame kwargs t
  refine ⟨?_, ?_, ?_, ?_, ?_, ?_, ?_, ?_, ?_⟩
  · simpa [WaterTank.update_params] using hf.2.2.2.2.1 hh
  · simp only [WaterTank.update_params]
    rw [hf.2.2.2.2.2 hl]
  · intro hc
    simpa [WaterTank.update_params] using hf.1 hc
  · intro hc
    simpa [WaterTank.update_params] using hf.2.1 hc
  · intro hc
    simpa [WaterTank.update_params] using hf.2.2.1 hc
  · intro hc
    simpa [WaterTank.update_params] using hf.2.2.2.1 hc
  · cases hit : alookup kwargs "initial_temp" with
    | none => simp [RoomTemperature.update_params, hit]
    | some v => cases v <;> simp [RoomTemperature.update_params, hit]
  · cases hit : alookup kwargs "initial_temp" with
    | none => simp [RoomTemperature.update_params, hit]
    | some v => cases v <;> simp [RoomTemperature.update_params, hit]
  · intro hc
    simp [RoomTemperature.update_params, hc]

/-- Witness for the amended C7 at a concrete mapping naming only
`inflow` and an unrecognized key. -/
theorem update_params_frame_witness :
    (sampleTank.update_params
        [("inflow", PyValue.num 5), ("typo_key", PyValue.num 1)]).history =
      sampleTank.history ∧
    (sampleTank.update_params
        [("inflow", PyValue.num 5), ("typo_key", PyValue.num 1)]).capacity =
      sampleTank.capacity := by
  have h := update_params_frame sampleTank (RoomTemperature.make 20)
    [("inflow", PyValue.num 5), ("typo_key", PyValue.num 1)] (by rfl) (by rfl)
  exact ⟨h.1, h.2.2.1 (by rfl)⟩

theorem applyOp_kind (mo : Model) (op : ModelOp) :
    (Model.applyOp mo op).kind = mo.kind := by
  cases mo with
  | tank t =>
      cases op with
      | step u raw dt =>
          by_cases hdt : dt ≤ 0 <;>
            simp [Model.applyOp, Model.step, WaterTank.step, hdt, Except.map, Model.kind]
      | reset kw => rfl
      | update_params kw => rfl
  | room r =>
      cases op with
      | step u raw dt =>
          simp [Model.applyOp, Model.step, RoomTemperature.step, Except.map, Model.kind]
      | reset kw => rfl
      | update_params kw => rfl

theorem applyOp_history_length (mo : Model) (op : ModelOp)
    (hop : ∀ kw, op = ModelOp.update_params kw → alookup kw "history" = none) :
    (Model.applyOp mo op).history.length =
      (match op with
       | ModelOp.step _ _ dt =>
           if stepSucceeds mo.kind dt then mo.history.length + 1 else mo.history.length
       | ModelOp.reset _ => 0
       | ModelOp.update_params _ => mo.history.length) := by
  cases mo with
  | tank t =>
      cases op with
      | step u raw dt =>
          by_cases hdt : dt ≤ 0
          · have hlt : ¬ (0 : ℚ) < dt := by linarith
            simp [Model.applyOp, Model.step, WaterTank.step, hdt, Except.map, Model.kind,
              Model.history, stepSucceeds, hlt]
          · have hlt : (0 : ℚ) < dt := by linarith
            simp [Model.applyOp, Model.step, WaterTank.step, hdt, Except.map, Model.kind,
              Model.history, stepSucceeds, hlt]
      | reset kw => simp [Model.applyOp, Model.reset, WaterTank.reset, Model.history]
      | update_params kw =>
          have hh := hop kw rfl
          have hf := (tank_fold_update_frame kw t).2.2.2.2.1 hh
          simp [Model.applyOp, Model.update_params, WaterTank.update_params,
            Model.history, hf]
  | room r =>
      cases op with
      | step u raw dt =>
          simp [Model.applyOp, Model.step, RoomTemperature.step, Except.map, Model.kind,
            Model.history, stepSucceeds]
      | reset kw => simp [Model.applyOp, Model.reset, RoomTemperature.reset, Model.history]
      | update_params kw =>
          cases hit : alookup kw "initial_temp" with
          | none =>
              simp [Model.applyOp, Model.update_params, RoomTemperature.update_params,
                hit, Model.history]
          | some v =>
              cases v <;>
                simp [Model.applyOp, Model.update_params, RoomTemperature.update_params,
                  hit, Model.history]

/-- Claim C6 counterexample: `reconfigure` CAN lengthen the history — a
`WaterTank.update_params` mapping naming `"history"` installs a
two-snapshot history although zero `step` calls were performed. -/
theorem history_length_not_step_count :
    (Model.runOps (Model.tank sampleTank)
        [ModelOp.update_params
          [("history", PyValue.snapshots [[("level", 1)], [("level", 2)]])]]).history.length
      = 2 ∧
    stepsSinceReset ModelKind.water_tank 0
        [ModelOp.update_params
          [("history", PyValue.snapshots [[("level", 1)], [("level", 2)]])]] = 0 := by
  constructor
  · simp [Model.runOps, Model.applyOp, Model.update_params, WaterTank.update_params,
      WaterTank.setAttr, sampleTank, Model.history]
  · rfl

/-- Claim C6 (amended): over every sequence of mutating operations in
which no `update_params` mapping names `"history"` (for `WaterTank` that
key replaces the record, see the counterexample), `step` is the only
operation that lengthens the history, and the final history length
equals the number of successful `step` calls since the most recent
`reset` (or since the start if no reset occurred). -/
theorem history_length_counts_steps (ops : List ModelOp) :
    ∀ mo : Model,
      (∀ kw, ModelOp.update_params kw ∈ ops → alookup kw "history" = none) →
      (Model.runOps mo ops).history.length =
        stepsSinceReset mo.kind mo.history.length ops := by
  induction ops with
  | nil => intro mo _; rfl
  | cons op rest ih =>
      intro mo h
      have hhd : ∀ kw, op = ModelOp.update_params kw → alookup kw "history" = none := by
        intro kw hkw
        refine h kw ?_
        rw [← hkw]
        exact List.mem_cons_self op rest
      have hrest : ∀ kw, ModelOp.update_params kw ∈ rest → alookup kw "history" = none :=
        fun kw hm => h kw (List.mem_cons_of_mem _ hm)
      have hrun : Model.runOps mo (op :: rest) = Model.runOps (Model.applyOp mo op) rest :=
        rfl
      rw [hrun, ih (Model.applyOp mo op) hrest, applyOp_kind,
        applyOp_history_length mo op hhd]
      cases op with
      | step u raw dt => simp [stepsSinceReset]
      | reset kw => simp [stepsSinceReset]
      | update_params kw => simp [stepsSinceReset]

/-- Witness for the amended C6: a run with two successful steps, one
rejected step and a reset ends with history length `1`. -/
theorem history_length_counts_steps_witness :
    (Model.runOps (Model.tank sampleTank)
        [ModelOp.step 10 3 1, ModelOp.step 0 0 (-1), ModelOp.reset [],
         ModelOp.step 1 1 2]).history.length = 1 := by
  have h := history_length_counts_steps
    [ModelOp.step 10 3 1, ModelOp.step 0 0 (-1), ModelOp.reset [], ModelOp.step 1 1 2]
    (Model.tank sampleTank) (by intro kw hkw; simp at hkw)
  rw [h]
  norm_num [stepsSinceReset, stepSucceeds, Model.kind, Model.history, sampleTank]

theorem tank_applyOp_inv (t : WaterTank) (op : ModelOp) (hinv : t.Inv)
    (hsafe : levelSafeOp op) : (t.applyOp op).Inv := by
  obtain ⟨h0, hc, hpos⟩ := hinv
  cases op with
  | step u raw dt =>
      by_cases hdt : dt ≤ 0
      · simp only [WaterTank.applyOp, WaterTank.step, if_pos hdt]
        exact ⟨h0, hc, hpos⟩
      · simp only [WaterTank.applyOp, WaterTank.step, if_neg hdt, WaterTank.Inv]
        exact ⟨le_min (le_max_left 0 raw) (le_of_lt hpos), min_le_right _ _, hpos⟩
  | reset kw =>
      have hcap : 0 < getNum kw "capacity" t.capacity := by
        unfold getNum
        cases hcl : alookup kw "capacity" with
        | none => exact hpos
        | some v =>
            cases v with
            | num q => exact hsafe q hcl
            | snapshots h => exact hpos
            | logList l => exact hpos
      simp only [WaterTank.applyOp, WaterTank.reset, WaterTank.Inv]
      exact ⟨le_refl 0, le_of_lt hcap, hcap⟩
  | update_params kw => exact hsafe.elim

theorem tank_runOps_inv (ops : List ModelOp) :
    ∀ t : WaterTank, t.Inv → (∀ op ∈ ops, levelSafeOp op) → (t.runOps ops).Inv := by
  induction ops with
  | nil => intro t hinv _; exact hinv
  | cons op rest ih =>
      intro t hinv hsafe
      have hrw : WaterTank.runOps t (op :: rest) = WaterTank.runOps (t.applyOp op) rest :=
        rfl
      rw [hrw]
      exact ih _ (tank_applyOp_inv t op hinv (hsafe op (List.mem_cons_self _ _)))
        fun o ho => hsafe o (List.mem_cons_of_mem _ ho)

/-- Claim C9 counterexample: a `reset` carrying a non-positive
`capacity` override escapes the bound — after `reset(capacity=-1)` a
subsequent successful `step` clamps the level to the negative capacity,
so `0 <= level` fails. -/
theorem tank_level_bound_fails_after_negative_capacity :
    (WaterTank.runOps sampleTank
        [ModelOp.reset [("capacity", PyValue.num (-1))], ModelOp.step 0 0 1]).level
      = -1 ∧
    ¬ (0 : ℚ) ≤ -1 := by
  constructor
  · norm_num [WaterTank.runOps, WaterTank.applyOp, WaterTank.reset, WaterTank.step,
      getNum, alookup, sampleTank, List.foldl, min_def, max_def]
  · norm_num

/-- Claim C9 (amended): after construction (which rejects a non-positive
capacity) the water level satisfies `0 <= level <= capacity` with a
positive capacity, and the bound is preserved by every sequence of
`step` and `reset` operations in which every `reset`'s numeric
`capacity` override — if any — is positive (the source's `reset`
performs no validation, see the counterexample; operations setting the
level directly, i.e. `update_params`, are excluded as in the claim). -/
theorem tank_level_invariant :
    (∀ capacity inflow oc t0,
        WaterTank.make capacity inflow oc = Except.ok t0 → t0.Inv) ∧
    (∀ ops : List ModelOp, ∀ t : WaterTank,
        t.Inv → (∀ op ∈ ops, levelSafeOp op) → (t.runOps ops).Inv) := by
  constructor
  · intro c i oc t0 hmk
    unfold WaterTank.make at hmk
    by_cases hc : c ≤ 0
    · simp [hc] at hmk
    · simp only [if_neg hc] at hmk
      injection hmk with hmk
      rw [← hmk]
      exact ⟨le_refl 0, le_of_lt (lt_of_not_le hc), lt_of_not_le hc⟩
  · exact fun ops => tank_runOps_inv ops

/-- Witness for the amended C9: a concrete run of one step and one
positive-capacity reset keeps the invariant. -/
theorem tank_level_invariant_witness :
    (WaterTank.runOps sampleTank
        [ModelOp.step 5 120 1, ModelOp.reset [("capacity", PyValue.num 50)]]).Inv := by
  refine tank_level_invariant.2 _ sampleTank ?_ ?_
  · exact ⟨le_refl 0, by norm_num [sampleTank], by norm_num [sampleTank]⟩
  · intro op hop
    simp only [List.mem_cons, List.mem_singleton] at hop
    rcases hop with h | h | h
    · rw [h]; exact trivial
    · rw [h]
      intro q hq
      simp [alookup] at hq
      subst hq
      norm_num
    · exact absurd h (by simp)

/-- Claim C10: `WaterTank.update_params` overwrites ANY attribute whose
name exists on the instance: `"level"` sets the current level directly,
with no clamping into `[0, capacity]`, and `"history"` and `"logs"`
replace the internal records (the fresh `"Params updated"` entry is then
appended to the replacement logs). -/
theorem tank_update_params_overwrites_any_attribute (t : WaterTank) (q : ℚ)
    (hist : List Snapshot) (repl : List LogEntry) :
    (t.update_params [("level", PyValue.num q)]).level = q ∧
    (t.update_params [("history", PyValue.snapshots hist)]).history = hist ∧
    (t.update_params [("logs", PyValue.logList repl)]).logs =
      repl ++ [LogEntry.paramsUpdated [("logs", PyValue.logList repl)]] := by
  refine ⟨?_, ?_, ?_⟩ <;> simp [WaterTank.update_params, WaterTank.setAttr]

/-- Claim C5: `InMemorySessionStore.get` returns absent for a key that
was never set, was deleted, or whose expiry has passed; and observing an
expired entry physically removes it, so a direct inspection of the
resulting store finds no entry for the key (lazy eviction on read). -/
theorem store_get_absent_semantics (s : InMemorySessionStore) (key : String)
    (now : ℤ) (hnd : keysNodup s.sessions) :
    (alookup s.sessions key = none → s.get key now = (none, s)) ∧
    ((s.delete key).get key now = (none, s.delete key)) ∧
    (∀ entry e, alookup s.sessions key = some entry → entry.expiry = some e →
      e < now →
      (s.get key now).1 = none ∧
      alookup ((s.get key now).2).sessions key = none) := by
  refine ⟨?_, ?_, ?_⟩
  · intro h
    simp [InMemorySessionStore.get, h]
  · have hdel : alookup (adel s.sessions key) key = none :=
      alookup_adel_self _ _ hnd
    simp [InMemorySessionStore.get, InMemorySessionStore.delete, hdel]
  · intro entry e hl hexp hlt
    constructor
    · simp [InMemorySessionStore.get, hl, hexp, hlt]
    · simp only [InMemorySessionStore.get, hl, hexp, if_pos hlt]
      exact alookup_adel_self _ _ hnd

/-- Witness for C5 at an expired concrete entry: the read returns absent
and evicts the entry. -/
theorem store_get_absent_semantics_witness :
    (sampleExpiredStore.get "k1" 100).1 = none ∧
    alookup ((sampleExpiredStore.get "k1" 100).2).sessions "k1" = none := by
  exact (store_get_absent_semantics sampleExpiredStore "k1" 100
      (by simp [sampleExpiredStore, keysNodup])).2.2
    sampleExpiredEntry 10 rfl rfl (by norm_num)

/-- Claim C8: `create_session` with a model name absent from the
registry fails with `UnknownModel` before any identifier is allocated,
and the store gains no entry from the failed call — every key present
afterwards was present before (the initial expiry sweep can only remove
entries). -/
theorem create_session_unknown_model (m : SimulationManager) (name : String)
    (params : Params) (fresh : Nat) (now : ℤ)
    (h : alookup m.model_registry name = none) :
    (m.create_session name params fresh now).1 =
      Except.error (SimError.unknownModel name) ∧
    ∀ k, alookup ((m.create_session name params fresh now).2).store.sessions k ≠ none →
      alookup m.store.sessions k ≠ none := by
  have hreg : (m.cleanup_expired_sessions now).model_registry = m.model_registry := rfl
  constructor
  · simp [SimulationManager.create_session, hreg, h]
  · intro k hk
    simp only [SimulationManager.create_session, hreg, h] at hk
    rw [cleanup_sessions_eq] at hk
    exact alookup_filter_isSome _ _ _ hk

/-- Witness for C8: creating a session for `"unregistered_name"` on a
concrete runtime fails with `UnknownModel`. -/
theorem create_session_unknown_model_witness :
    (emptyMgr.create_session "unregistered_name" [] 7 0).1 =
      Except.error (SimError.unknownModel "unregistered_name") := by
  exact (create_session_unknown_model emptyMgr "unregistered_name" [] 7 0 (by rfl)).1

theorem alookup_mem {α : Type} (l : List (String × α)) (k : String) (v : α)
    (h : alookup l k = some v) : (k, v) ∈ l := by
  induction l with
  | nil => simp [alookup] at h
  | cons kv rest ih =>
      obtain ⟨k0, w⟩ := kv
      by_cases h0 : k0 = k
      · subst h0
        have hwv : w = v := by simpa [alookup] using h
        subst hwv
        exact List.mem_cons_self _ _
      · simp only [alookup, if_neg h0] at h
        exact List.mem_cons_of_mem _ (ih h)

/-- Claim C4: when the model-contract call of `step` fails (an invalid
time step), the entry persisted for that session is unchanged by the
failed call: the stored model — hence its state, history and logs — is
the one stored before the call, and no partially-mutated model is
persisted.  (The lookup does refresh the entry's last-access time and
TTL before the model call; the stored model data is untouched.) -/
theorem failed_step_not_persisted (m : SimulationManager) (sid : Nat)
    (u raw dt : ℚ) (now : ℤ) (hnd : keysNodup m.store.sessions)
    (h : (m.step sid u raw dt now).1 = Except.error SimError.invalidTimeStep) :
    storedModel ((m.step sid u raw dt now).2) sid = storedModel m sid ∧
    ((storedModel ((m.step sid u raw dt now).2) sid).map fun nm => nm.2.get_state) =
      ((storedModel m sid).map fun nm => nm.2.get_state) ∧
    ((storedModel ((m.step sid u raw dt now).2) sid).map fun nm => nm.2.history) =
      ((storedModel m sid).map fun nm => nm.2.history) ∧
    ((storedModel ((m.step sid u raw dt now).2) sid).map fun nm => nm.2.logs) =
      ((storedModel m sid).map fun nm => nm.2.logs) := by
  suffices hmain :
      storedModel ((m.step sid u raw dt now).2) sid = storedModel m sid by
    exact ⟨hmain, by rw [hmain], by rw [hmain], by rw [hmain]⟩
  cases hl : alookup (m.cleanup_expired_sessions now).store.sessions (sessionKey sid) with
  | none =>
      have hGM := get_model_absent (m.cleanup_expired_sessions now) sid now hl
      simp only [SimulationManager.step, hGM] at h
      simp at h
  | some entry =>
      have hp := List.of_mem_filter
        (by rw [cleanup_sessions_eq] at hl; exact alookup_mem _ _ _ hl)
      have hGM : (m.cleanup_expired_sessions now).get_model sid now =
          (Except.ok entry.value.2.1,
           { m.cleanup_expired_sessions now with
             store :=
               (m.cleanup_expired_sessions now).store.set (sessionKey sid)
                 (entry.value.1, entry.value.2.1, now)
                 (some SESSION_TIMEOUT_SECONDS) now }) := by
        cases hexp : entry.expiry with
        | none => exact get_model_noexpiry _ _ _ _ hl hexp
        | some e =>
            rw [hexp] at hp
            simp only [Bool.not_eq_eq_eq_not, Bool.not_true, decide_eq_false_iff_not] at hp
            exact get_model_live _ _ _ _ _ hl hexp hp
      have horig : alookup m.store.sessions (sessionKey sid) = some entry := by
        rw [cleanup_sessions_eq] at hl
        exact alookup_filter_some _ _ _ _ hnd hl
      simp only [SimulationManager.step, hGM] at h ⊢
      cases hs : Model.step entry.value.2.1 u raw dt with
      | ok model' =>
          have hsave := save_model_live
            { m.cleanup_expired_sessions now with
              store :=
                (m.cleanup_expired_sessions now).store.set (sessionKey sid)
                  (entry.value.1, entry.value.2.1, now)
                  (some SESSION_TIMEOUT_SECONDS) now }
            sid model' now
            { value := (entry.value.1, entry.value.2.1, now)
              ex := some SESSION_TIMEOUT_SECONDS
              expiry := some (now + SESSION_TIMEOUT_SECONDS) }
            (now + SESSION_TIMEOUT_SECONDS)
            (by simpa using lookup_store_set_self _ _ _ _ _) rfl (timeout_not_lt now)
          simp only [hs, hsave] at h
          simp at h
      | error e =>
          simp only [hs] at h ⊢
          unfold storedModel storedSession
          simp only [horig]
          have hset := lookup_store_set_self
            (m.cleanup_expired_sessions now).store (sessionKey sid)
            (entry.value.1, entry.value.2.1, now) (some SESSION_TIMEOUT_SECONDS) now
          simp [hset]

/-- Witness for C4: a rejected `step` (`delta_time = -1`) on a live
concrete session leaves the stored model unchanged. -/
theorem failed_step_not_persisted_witness :
    storedModel ((sampleMgr.step 1 0 0 (-1) 0).2) 1 = storedModel sampleMgr 1 := by
  exact (failed_step_not_persisted sampleMgr 1 0 0 (-1) 0
    (by simp [sampleMgr, keysNodup]) (by rfl)).1

theorem get_model_after_cleanup (m : SimulationManager) (sid : Nat) (now : ℤ)
    (entry : StoreEntry)
    (hl : alookup (m.cleanup_expired_sessions now).store.sessions (sessionKey sid) =
      some entry) :
    (m.cleanup_expired_sessions now).get_model sid now =
      (Except.ok entry.value.2.1,
       { m.cleanup_expired_sessions now with
         store :=
           (m.cleanup_expired_sessions now).store.set (sessionKey sid)
             (entry.value.1, entry.value.2.1, now)
             (some SESSION_TIMEOUT_SECONDS) now }) := by
  have hp := List.of_mem_filter
    (by rw [cleanup_sessions_eq] at hl; exact alookup_mem _ _ _ hl)
  cases hexp : entry.expiry with
  | none => exact get_model_noexpiry _ _ _ _ hl hexp
  | some e =>
      rw [hexp] at hp
      simp only [Bool.not_eq_eq_eq_not, Bool.not_true, decide_eq_false_iff_not] at hp
      exact get_model_live _ _ _ _ _ hl hexp hp

theorem save_after_refresh (m : SimulationManager) (sid : Nat) (model : Model)
    (now : ℤ) (name : String) (mdl : Model) :
    ({ m with
        store :=
          m.store.set (sessionKey sid) (name, mdl, now)
            (some SESSION_TIMEOUT_SECONDS) now } :
      SimulationManager).save_model sid model now =
      (Except.ok (),
       { m with
         store :=
           (m.store.set (sessionKey sid) (name, mdl, now)
               (some SESSION_TIMEOUT_SECONDS) now).set (sessionKey sid)
             (name, model, now) (some SESSION_TIMEOUT_SECONDS) now }) := by
  exact save_model_live _ sid model now
    { value := (name, mdl, now)
      ex := some SESSION_TIMEOUT_SECONDS
      expiry := some (now + SESSION_TIMEOUT_SECONDS) }
    (now + SESSION_TIMEOUT_SECONDS)
    (by simpa using lookup_store_set_self _ _ _ _ _) rfl (timeout_not_lt now)

/-- Claim C1: every per-session runtime operation on an unavailable
session identifier — never created, explicitly deleted, or TTL elapsed
since last access — fails with the identical `UnknownSession` error in
all cases; an operation on a session whose TTL window has not elapsed
never fails with `UnknownSession`, and it resets the window: the entry's
expiry afterwards is `now + SESSION_TIMEOUT_SECONDS` (a `get_state`
before the window elapses moreover succeeds outright). -/
theorem runtime_unknown_session_uniform (m : SimulationManager) (sid : Nat)
    (now : ℤ) (hnd : keysNodup m.store.sessions) :
    (∀ op, sessionUnavailable m sid now = true →
        (runOp op m sid now).1 = Except.error (SimError.unknownSession sid)) ∧
    (∀ op, sessionUnavailable m sid now = false →
        (∀ s, (runOp op m sid now).1 ≠ Except.error (SimError.unknownSession s)) ∧
        ∃ name model,
          storedSession ((runOp op m sid now).2) sid =
            some { value := (name, model, now)
                   ex := some SESSION_TIMEOUT_SECONDS
                   expiry := some (now + SESSION_TIMEOUT_SECONDS) }) ∧
    (sessionUnavailable m sid now = false →
        ∃ snap, (runOp RuntimeOp.get_state m sid now).1 =
          Except.ok (OpResult.state snap)) := by
  have havail : ∀ op, sessionUnavailable m sid now = false →
      (∀ s, (runOp op m sid now).1 ≠ Except.error (SimError.unknownSession s)) ∧
      ∃ name model,
        storedSession ((runOp op m sid now).2) sid =
          some { value := (name, model, now)
                 ex := some SESSION_TIMEOUT_SECONDS
                 expiry := some (now + SESSION_TIMEOUT_SECONDS) } := by
    intro op hu
    obtain ⟨entry, hl⟩ := sessionUnavailable_false_lookup m sid now hu
    have hlc := lookup_cleanup_available m sid now entry hl hu
    have hGM := get_model_after_cleanup m sid now entry hlc
    cases op with
    | step u raw dt =>
        cases hs : Model.step entry.value.2.1 u raw dt with
        | ok model' =>
            have hsave := save_after_refresh (m.cleanup_expired_sessions now) sid
              model' now entry.value.1 entry.value.2.1
            constructor
            · intro s
              simp [Except.map, runOp, SimulationManager.step, hGM, hs, hsave]
            · refine ⟨entry.value.1, model', ?_⟩
              simp [Except.map, runOp, SimulationManager.step, hGM, hs, hsave, storedSession,
                lookup_store_set_self]
        | error e =>
            have he := Model.step_error_eq _ _ _ _ _ hs
            constructor
            · intro s
              simp [Except.map, runOp, SimulationManager.step, hGM, hs, he]
            · refine ⟨entry.value.1, entry.value.2.1, ?_⟩
              simp [Except.map, runOp, SimulationManager.step, hGM, hs, storedSession,
                lookup_store_set_self]
    | get_state =>
        constructor
        · intro s
          simp [Except.map, runOp, SimulationManager.get_state, hGM]
        · refine ⟨entry.value.1, entry.value.2.1, ?_⟩
          simp [Except.map, runOp, SimulationManager.get_state, hGM, storedSession,
            lookup_store_set_self]
    | get_history =>
        constructor
        · intro s
          simp [Except.map, runOp, SimulationManager.get_history, hGM]
        · refine ⟨entry.value.1, entry.value.2.1, ?_⟩
          simp [Except.map, runOp, SimulationManager.get_history, hGM, storedSession,
            lookup_store_set_self]
    | get_logs =>
        constructor
        · intro s
          simp [Except.map, runOp, SimulationManager.get_logs, hGM]
        · refine ⟨entry.value.1, entry.value.2.1, ?_⟩
          simp [Except.map, runOp, SimulationManager.get_logs, hGM, storedSession,
            lookup_store_set_self]
    | reset params =>
        have hsave := save_after_refresh (m.cleanup_expired_sessions now) sid
          (entry.value.2.1.reset params) now entry.value.1 entry.value.2.1
        constructor
        · intro s
          simp [Except.map, runOp, SimulationManager.reset, hGM, hsave]
        · refine ⟨entry.value.1, entry.value.2.1.reset params, ?_⟩
          simp [Except.map, runOp, SimulationManager.reset, hGM, hsave, storedSession,
            lookup_store_set_self]
    | update_params params =>
        have hsave := save_after_refresh (m.cleanup_expired_sessions now) sid
          (entry.value.2.1.update_params params) now entry.value.1 entry.value.2.1
        constructor
        · intro s
          simp [Except.map, runOp, SimulationManager.update_params, hGM, hsave]
        · refine ⟨entry.value.1, entry.value.2.1.update_params params, ?_⟩
          simp [Except.map, runOp, SimulationManager.update_params, hGM, hsave, storedSession,
            lookup_store_set_self]
  refine ⟨?_, havail, ?_⟩
  · intro op hu
    have h0 := lookup_cleanup_unavailable m sid now hnd hu
    have hGM := get_model_absent (m.cleanup_expired_sessions now) sid now h0
    cases op <;>
      simp [Except.map, runOp, SimulationManager.step, SimulationManager.get_state,
        SimulationManager.get_history, SimulationManager.get_logs,
        SimulationManager.reset, SimulationManager.update_params, hGM]
  · intro hu
    obtain ⟨entry, hl⟩ := sessionUnavailable_false_lookup m sid now hu
    have hlc := lookup_cleanup_available m sid now entry hl hu
    have hGM := get_model_after_cleanup m sid now entry hlc
    refine ⟨entry.value.2.1.get_state, ?_⟩
    simp [Except.map, runOp, SimulationManager.get_state, hGM]

/-- Witness for C1: on a concrete runtime, an operation on a never
created session fails with `UnknownSession`, and a `get_state` within
the TTL window succeeds. -/
theorem runtime_unknown_session_uniform_witness :
    (runOp RuntimeOp.get_state emptyMgr 0 0).1 =
      Except.error (SimError.unknownSession 0) ∧
    ∃ snap, (runOp RuntimeOp.get_state sampleMgr 1 0).1 =
      Except.ok (OpResult.state snap) := by
  constructor
  · exact (runtime_unknown_session_uniform emptyMgr 0 0
      (by simp [emptyMgr, keysNodup])).1 RuntimeOp.get_state (by rfl)
  · exact (runtime_unknown_session_uniform sampleMgr 1 0
      (by simp [sampleMgr, keysNodup])).2.2 (by rfl)
